import Mathlib

/-!
Verification of the Pearteto desk assistant (teto.py) against its
natural-language specification.

The development shallowly embeds the program:
* small models of the Python string operations the code uses
  (substring test, startswith, strip, replace, split, int(), capitalize);
* the conversational state and the environment of external OS calls
  (battery, CPU, clipboard, subprocess, randomness), where a call that the
  Python code does not wrap in try/except is an `Except` value whose error
  case propagates, and a wrapped call is matched on both cases locally;
* `respond` as the first-match if-chain of teto.py lines 204-420;
* a discrete-event model of the `TextBubble` reveal/auto-hide timers and of
  the `AnimatedAvatar` blink/talk single-shot timers;
* the startup image check of the `__main__` block.
-/

/-! ## Python string primitives -/

/-- Python whitespace: the characters for which str.isspace() holds, the
exact set str.strip() and no-argument str.split() separate on (ASCII
whitespace, the C1/Unicode space and separator characters). -/
def pyIsSpace (c : Char) : Bool :=
  c = ' ' || c = '\t' || c = '\n' || c = '\x0d' || c = '\x0b' || c = '\x0c'
    || c = '\x1c' || c = '\x1d' || c = '\x1e' || c = '\x1f'
    || c = '\x85' || c = '\xa0' || c = '\u1680'
    || ('\u2000' ≤ c && c ≤ '\u200a')
    || c = '\u2028' || c = '\u2029' || c = '\u202f' || c = '\u205f' || c = '\u3000'

/-- Auxiliary for the Python substring test: does pat occur in the list? -/
def pyInAux (pat : List Char) : List Char → Bool
  | [] => pat.isEmpty
  | c :: rest => pat.isPrefixOf (c :: rest) || pyInAux pat rest

/-- Python `sub in s` substring containment test. -/
def pyIn (sub s : String) : Bool := pyInAux sub.data s.data

/-- Python `s.startswith(pre)`. -/
def pyStartsWith (pre s : String) : Bool := pre.data.isPrefixOf s.data

/-- Python `s.strip()`: drop leading and trailing whitespace. -/
def pyStrip (s : String) : String :=
  String.mk (((s.data.dropWhile pyIsSpace).reverse.dropWhile pyIsSpace).reverse)

/-- Python `s.lower()` (ASCII case mapping). -/
def pyLower (s : String) : String := String.mk (s.data.map Char.toLower)

/-- Python `s.capitalize()`: first character upper-cased, rest lower-cased
(ASCII case mapping). -/
def pyCapitalize (s : String) : String :=
  match s.data with
  | [] => ""
  | c :: rest => String.mk (Char.toUpper c :: rest.map Char.toLower)

/-- Fuel-driven worker for splitting on a substring: scans the character
list, cutting at each leftmost non-overlapping occurrence of pat.  The fuel
starts at the length of the scanned list, which each step shortens, so the
fuel never runs out on the initial call. -/
def pySplitAux (pat : List Char) : Nat → List Char → List Char → List (List Char)
  | 0, s, acc => [acc.reverse ++ s]
  | _ + 1, [], acc => [acc.reverse]
  | fuel + 1, c :: rest, acc =>
    if pat.isPrefixOf (c :: rest) then
      acc.reverse :: pySplitAux pat fuel ((c :: rest).drop pat.length) []
    else
      pySplitAux pat fuel rest (c :: acc)

/-- Python `s.split(pat)` for a non-empty separator pat (the code only ever
splits on non-empty literals); for an empty pat we return [s]. -/
def pySplitOnSub (s pat : String) : List String :=
  if pat.data.isEmpty then [s]
  else (pySplitAux pat.data s.data.length s.data []).map String.mk

/-- Python `s.replace(pat, repl)` for non-empty pat: replace every leftmost
non-overlapping occurrence. -/
def pyReplaceAll (s pat repl : String) : String :=
  String.intercalate repl (pySplitOnSub s pat)

/-- Worker for whitespace splitting: acc is the current word reversed. -/
def pySplitWSAux : List Char → List Char → List (List Char)
  | [], [] => []
  | [], acc => [acc.reverse]
  | c :: rest, acc =>
    if pyIsSpace c then
      match acc with
      | [] => pySplitWSAux rest []
      | _ => acc.reverse :: pySplitWSAux rest []
    else pySplitWSAux rest (c :: acc)

/-- Python `s.split()` with no separator: split on whitespace runs,
discarding empty fields. -/
def pySplitWS (s : String) : List String :=
  (pySplitWSAux s.data []).map String.mk

/-- Digit tail of a Python int literal: ASCII digits with single
underscores allowed between digits (int("1_0") = 10), never doubled,
leading or trailing. -/
def pyDigitsAux (acc : Nat) : List Char → Option Nat
  | [] => some acc
  | '_' :: c :: rest =>
    if c.isDigit then pyDigitsAux (acc * 10 + (c.toNat - 48)) rest else none
  | ['_'] => none
  | c :: rest =>
    if c.isDigit then pyDigitsAux (acc * 10 + (c.toNat - 48)) rest else none

/-- Nonempty all-digit (with grouping underscores) parse. -/
def pyParseNat : List Char → Option Nat
  | [] => none
  | c :: rest => if c.isDigit then pyDigitsAux (c.toNat - 48) rest else none

/-- Python `int(s)` on an already-whitespace-free token: optional sign then
digits.  (Unicode digits are out of scope; the assistant's input is plain
keyboard text.)  Returns none where Python raises ValueError. -/
def pyInt (s : String) : Option Int :=
  match s.data with
  | '+' :: rest => (pyParseNat rest).map (fun n => (n : Int))
  | '-' :: rest => (pyParseNat rest).map (fun n => -(n : Int))
  | l => (pyParseNat l).map (fun n => (n : Int))

/-- First 300 characters, Python `s[:300]`. -/
def pyTake (n : Nat) (s : String) : String := String.mk (s.data.take n)

/-- Python `s.split(":", 1)`: break at the first colon; none when there is
no colon (where `[1]` would raise IndexError). -/
def breakAtColon : List Char → Option (List Char × List Char)
  | [] => none
  | ':' :: rest => some ([], rest)
  | c :: rest => (breakAtColon rest).map (fun p => (c :: p.1, p.2))

/-- The text after the first colon of a line, stripped — models
`line.split(":", 1)[1].strip()`; none models the IndexError. -/
def afterColon (l : String) : Option String :=
  (breakAtColon l.data).map (fun p => pyStrip (String.mk p.2))

example : pyIn "battery" "battery problem" = true := by decide
example : pyIn "time" "battery problem" = false := by decide
example : pyReplaceAll "my name is alice" "my name is " "" = "alice" := by decide
example : pyCapitalize "alice" = "Alice" := by decide
example : pySplitWS "guess  5 please" = ["guess", "5", "please"] := by decide
example : pyInt "-3" = some (-3) := by decide
example : pyInt "1_0" = some 10 := by decide
example : pyInt "1__0" = none := by decide
example : pyInt "abc" = none := by decide
example : afterColon "SSID : home" = some "home" := by decide
example : afterColon "SSID" = none := by decide

/-! ## Data model (teto.py, DesktopAssistant) -/

/-- Result of psutil.sensors_battery() when a battery is present: its
percent (kept as the string Python interpolates) and power_plugged flag. -/
structure BatteryInfo where
  percentStr : String
  powerPlugged : Bool
deriving DecidableEq

/-- self.user_profile (teto.py lines 126-130). -/
structure UserProfile where
  name : Option String
  favorite_color : Option String
  birthday : Option String
deriving DecidableEq

/-- The conversational state respond reads and mutates: the guess-game
flag and secret (lines 164-165, 277-294), the RPS flag (lines 166,
297-317) and the user profile. -/
structure ConvState where
  game_active : Bool
  secret_number : Option Int
  rps_active : Bool
  user_profile : UserProfile
deriving DecidableEq

/-- State as constructed by DesktopAssistant.__init__ / init_ui. -/
def initState : ConvState :=
  { game_active := false, secret_number := none, rps_active := false,
    user_profile := { name := none, favorite_color := none, birthday := none } }

/-- A Python exception, carried as the message that str(e) would render. -/
abbrev PyErr := String

/-- One file met by the os.walk scan of the Documents folder: its basename,
the os.path.getmtime result (which the code wraps in try/except per file,
lines 358-362), and the outcome of
datetime.datetime.fromtimestamp(mtime).strftime(...) (line 372) — that
call sits outside any try/except and can itself raise (e.g. OSError on
Windows for a pre-epoch mtime), so it is an Except too. -/
structure RecentEntry where
  base : String
  mtime : Except PyErr Int
  mtimeStr : Except PyErr String

/-- The external world of one respond call.  Each field is the outcome of
the corresponding OS / library call; a field of type Except PyErr can fail
the way the Python call can raise.  The random draws (random.choice,
random.randint) are the sampled values. -/
structure Env where
  /-- datetime.now().strftime result. -/
  nowStr : String
  /-- psutil.sensors_battery(): may raise; returns None or an info object. -/
  battery : Except PyErr (Option BatteryInfo)
  /-- psutil.cpu_percent(interval=0.5), rendered as Python prints it. -/
  cpuPct : Except PyErr String
  /-- psutil.virtual_memory().percent, rendered as Python prints it. -/
  memPct : Except PyErr String
  /-- subprocess.Popen("cleanmgr"). -/
  cleanmgr : Except PyErr Unit
  /-- Index drawn by random.choice(self.fun_facts). -/
  funFactIdx : Fin 3
  /-- QApplication.clipboard().text() ("" when empty or not text). -/
  clipboard : Except PyErr String
  /-- os.startfile(path) outcome for the looked-up app path. -/
  startfileResult : Except PyErr Unit
  /-- random.randint(1, 10) draw for the guess game. -/
  secret : Int
  /-- Index drawn by random.choice(["rock", "paper", "scissors"]). -/
  rpsIdx : Fin 3
  /-- toggle_mute COM call outcome. -/
  muteResult : Except PyErr Unit
  /-- netsh wlan show interfaces output, split into lines. -/
  wifiLines : Except PyErr (List String)
  /-- os.path.exists(~/Documents). -/
  docExists : Bool
  /-- Files found under ~/Documents by os.walk (which itself suppresses
  directory errors via its default onerror=None). -/
  files : List RecentEntry

/-- A respond call either returns (response string, new state) or lets a
Python exception escape. -/
abbrev Res := Except PyErr (String × ConvState)

/-! ## Fixed tables (teto.py lines 112-124, 434-437) -/

/-- self.fun_facts. -/
def funFacts : List String :=
  ["Honey never spoils.",
   "Octopuses have three hearts.",
   "Bananas are berries, but strawberries aren't."]

/-- self.fix_tips, in dict insertion order. -/
def fixTips : List (String × String) :=
  [("slow", "Try restarting your PC and closing unused apps."),
   ("internet", "Check your router or try resetting your network adapter."),
   ("battery", "Try calibrating your battery or replace if it's old."),
   ("crash", "Update your drivers and check for overheating."),
   ("disk", "You can free up space by running 'cleanmgr' (Disk Cleanup) or deleting temp files using Win+R â†’ %temp%.")]

/-- launch_app's app_paths table. -/
def appPaths : List (String × String) :=
  [("chrome", "C:/Program Files (x86)/Google/Chrome/Application/chrome.exe"),
   ("edge", "C:/Program Files/Internet Explorer/iexplore.exe")]

/-- The move list random.choice draws the bot's RPS move from. -/
def rpsMoves : List String := ["rock", "paper", "scissors"]

/-! ## Rule predicates, in source order -/

/-- Rule 1 trigger (line 212). -/
def pTime (t : String) : Bool := pyIn "time" t || pyIn "date" t

/-- Rule 2 trigger (line 215). -/
def pBattery (t : String) : Bool := pyIn "battery" t

/-- Rule 3 trigger (line 221). -/
def pHealth (t : String) : Bool := pyIn "health" t || pyIn "cpu" t || pyIn "memory" t

/-- Rule 4 trigger (line 225). -/
def pFix (t : String) : Bool :=
  pyIn "fix" t || pyIn "slow" t || pyIn "problem" t || pyIn "crash" t || pyIn "disk" t

/-- Rule 5 trigger (line 232). -/
def pCleanup (t : String) : Bool :=
  pyIn "run cleanup" t || pyIn "open cleanup" t || pyIn "clean" t

/-- Rule 6 trigger (line 239). -/
def pFact (t : String) : Bool := pyIn "fun fact" t || pyIn "fact" t

/-- Rule 7 trigger (line 243). -/
def pSummary (t : String) : Bool :=
  pyIn "summary" t || pyIn "status report" t || pyIn "how am i doing" t

/-- Rule 8 trigger (line 261). -/
def pOpen (t : String) : Bool := pyStartsWith "open " t

/-- Rule 9 trigger (line 265). -/
def pClipboard (t : String) : Bool := pyIn "clipboard" t || pyIn "read clipboard" t

/-- Rule 10 trigger (line 268). -/
def pExitWords (t : String) : Bool :=
  t == "exit" || t == "quit" || t == "close" || t == "bye"

/-- Rule 11 trigger (line 277). -/
def pPlayGuess (t : String) : Bool := pyIn "play guess" t || pyIn "guess number" t

/-- Rule 12 trigger (line 283): guess game active and text starts with
"guess". -/
def pGuess (s : ConvState) (t : String) : Bool :=
  s.game_active && pyStartsWith "guess" t

/-- Rule 13 trigger (line 297). -/
def pPlayRps (t : String) : Bool := pyIn "rock paper scissors" t || pyIn "play rps" t

/-- Rule 14 trigger (line 302): RPS active and text is exactly a move. -/
def pRpsMove (s : ConvState) (t : String) : Bool :=
  s.rps_active && (t == "rock" || t == "paper" || t == "scissors")

/-- Rule 15 trigger (line 320). -/
def pSetName (t : String) : Bool := pyStartsWith "my name is " t

/-- Rule 16 trigger (line 326). -/
def pSetColor (t : String) : Bool := pyStartsWith "my favorite color is " t

/-- Rule 17 trigger (line 332). -/
def pSetBirthday (t : String) : Bool := pyIn "my birthday is" t

/-- Rule 18 trigger (line 338). -/
def pRecall (t : String) : Bool := pyIn "what do you know about me" t

/-- Rule 19 trigger (line 346). -/
def pRecent (t : String) : Bool := pyIn "recent files" t || pyIn "show recent" t

/-- Rule 20 trigger (line 377). -/
def pWifi (t : String) : Bool :=
  pyIn "wifi info" t || pyIn "wifi status" t || pyIn "network info" t

/-- Rule 21 trigger (line 403). -/
def pHello (t : String) : Bool := t == "hi" || t == "hello"

/-- Rule 22 trigger (line 406). -/
def pMute (t : String) : Bool := t == "mute audio" || t == "mute sound"

/-- Rule 23 trigger (line 413). -/
def pUnmute (t : String) : Bool := t == "unmute audio" || t == "unmute sound"

/-! ## Rule handlers, in source order -/

/-- Rule 1 body (lines 212-214). -/
def handlerTime (env : Env) (s : ConvState) (_t : String) : Res :=
  Except.ok (env.nowStr, s)

/-- Rule 2 body (lines 215-220).  sensors_battery() is not wrapped in
try/except, so a raise propagates. -/
def handlerBattery (env : Env) (s : ConvState) (_t : String) : Res :=
  match env.battery with
  | Except.error e => Except.error e
  | Except.ok (some b) =>
    Except.ok ("Battery is at " ++ b.percentStr ++ "% and "
      ++ (if b.powerPlugged then "charging" else "on battery") ++ ".", s)
  | Except.ok none => Except.ok ("Battery info not available.", s)

/-- Rule 3 body (lines 221-224); cpu_percent / virtual_memory unwrapped. -/
def handlerHealth (env : Env) (s : ConvState) (_t : String) : Res :=
  match env.cpuPct with
  | Except.error e => Except.error e
  | Except.ok cpu =>
    match env.memPct with
    | Except.error e => Except.error e
    | Except.ok mem =>
      Except.ok ("CPU usage is " ++ cpu ++ "%. Memory usage is " ++ mem ++ "%.", s)

/-- Rule 4 body (lines 225-229): first fix_tips key contained in the text
wins, in dict order; else the generic tip. -/
def handlerFix (_env : Env) (s : ConvState) (t : String) : Res :=
  match fixTips.find? (fun kv => pyIn kv.1 t) with
  | some kv => Except.ok (kv.2, s)
  | none => Except.ok ("Try restarting your computer or checking for updates.", s)

/-- Rule 5 body (lines 232-237): Popen is wrapped, failure is reported. -/
def handlerCleanup (env : Env) (s : ConvState) (_t : String) : Res :=
  match env.cleanmgr with
  | Except.ok _ => Except.ok ("Launching Disk Cleanup...", s)
  | Except.error e => Except.ok ("Failed to launch Disk Cleanup: " ++ e, s)

/-- Rule 6 body (lines 239-241). -/
def handlerFact (env : Env) (s : ConvState) (_t : String) : Res :=
  Except.ok (funFacts.getD env.funFactIdx.val "", s)

/-- Rule 7 body (lines 243-259): timestamp, battery, cpu and memory (the
psutil calls again unwrapped), and a fun fact. -/
def handlerSummary (env : Env) (s : ConvState) (_t : String) : Res :=
  match env.battery with
  | Except.error e => Except.error e
  | Except.ok batt =>
    let battInfo :=
      match batt with
      | some b =>
        "Battery at " ++ b.percentStr ++ "%, "
          ++ (if b.powerPlugged then "charging" else "on battery") ++ "."
      | none => "Battery info not available."
    match env.cpuPct with
    | Except.error e => Except.error e
    | Except.ok cpu =>
      match env.memPct with
      | Except.error e => Except.error e
      | Except.ok mem =>
        Except.ok (env.nowStr ++ "\n" ++ battInfo ++ "\n"
          ++ "CPU: " ++ cpu ++ "%, Memory: " ++ mem ++ "%." ++ "\n"
          ++ "Fun fact: " ++ funFacts.getD env.funFactIdx.val "", s)

/-- Rule 8 body (lines 261-263 and launch_app, lines 433-446): the text
has every occurrence of "open " removed (str.replace replaces all), is
stripped and lower-cased, then looked up in app_paths; os.startfile is
wrapped. -/
def handlerOpen (env : Env) (s : ConvState) (t : String) : Res :=
  let appName := pyLower (pyStrip (pyReplaceAll t "open " ""))
  match appPaths.lookup appName with
  | some _path =>
    match env.startfileResult with
    | Except.ok _ => Except.ok ("Launching " ++ pyCapitalize appName ++ "...", s)
    | Except.error e => Except.ok ("Couldn't launch " ++ appName ++ ": " ++ e, s)
  | none => Except.ok ("I don't know how to open " ++ appName ++ ".", s)

/-- Rule 9 body (lines 265-266 and read_clipboard, lines 425-430); the
clipboard read is unwrapped. -/
def handlerClipboard (env : Env) (s : ConvState) (_t : String) : Res :=
  match env.clipboard with
  | Except.error e => Except.error e
  | Except.ok text =>
    if text ≠ "" then
      Except.ok ("Clipboard says:\n" ++ pyTake 300 text, s)
    else
      Except.ok ("Clipboard is empty or not text.", s)

/-- Rule 10 body (lines 268-272): talk animation, goodbye bubble and the
delayed QApplication.quit are UI side effects outside this model; the
returned response string is "". -/
def handlerExitWords (_env : Env) (s : ConvState) (_t : String) : Res :=
  Except.ok ("", s)

/-- Rule 11 body (lines 277-280): activate the guess game with a fresh
random secret. -/
def handlerPlayGuess (env : Env) (s : ConvState) (_t : String) : Res :=
  Except.ok ("I'm thinking of a number between 1 and 10. Try to guess it!",
    { s with game_active := true, secret_number := some env.secret })

/-- Rule 12 body (lines 283-294): int(text.split()[1]) under a bare
except; a missing token (IndexError), an unparsable token (ValueError), or
a None secret (TypeError on the comparison) all yield the usage hint with
unchanged state. -/
def handlerGuess (_env : Env) (s : ConvState) (t : String) : Res :=
  match (pySplitWS t)[1]? with
  | none => Except.ok ("Please type like: guess 5", s)
  | some tok =>
    match pyInt tok with
    | none => Except.ok ("Please type like: guess 5", s)
    | some guess =>
      match s.secret_number with
      | none => Except.ok ("Please type like: guess 5", s)
      | some secret =>
        if guess < secret then Except.ok ("Too low! Try again.", s)
        else if guess > secret then Except.ok ("Too high! Try again.", s)
        else Except.ok ("Correct! You guessed it!", { s with game_active := false })

/-- Rule 13 body (lines 297-299). -/
def handlerPlayRps (_env : Env) (s : ConvState) (_t : String) : Res :=
  Except.ok ("Let's play Rock, Paper, Scissors! Type your move: rock, paper, or scissors.",
    { s with rps_active := true })

/-- The verdict if-chain of lines 307-314. -/
def rpsVerdict (user bot : String) : String :=
  if user == bot then "It's a tie!"
  else if (user == "rock" && bot == "scissors")
      || (user == "paper" && bot == "rock")
      || (user == "scissors" && bot == "paper") then "You win!"
  else "I win!"

/-- Rule 14 body (lines 302-317): random bot move, verdict, deactivate. -/
def handlerRpsMove (env : Env) (s : ConvState) (t : String) : Res :=
  let bot := rpsMoves.getD env.rpsIdx.val ""
  Except.ok ("You chose " ++ t ++ ", I chose " ++ bot ++ ". " ++ rpsVerdict t bot,
    { s with rps_active := false })

/-- Rule 15 body (lines 320-323). -/
def handlerSetName (_env : Env) (s : ConvState) (t : String) : Res :=
  let name := pyCapitalize (pyStrip (pyReplaceAll t "my name is " ""))
  Except.ok ("Nice to meet you, " ++ name ++ "!",
    { s with user_profile := { s.user_profile with name := some name } })

/-- Rule 16 body (lines 326-329). -/
def handlerSetColor (_env : Env) (s : ConvState) (t : String) : Res :=
  let color := pyStrip (pyReplaceAll t "my favorite color is " "")
  Except.ok ("I'll remember that your favorite color is " ++ color ++ ".",
    { s with user_profile := { s.user_profile with favorite_color := some color } })

/-- Rule 17 body (lines 332-335): text.split("my birthday is")[-1].strip(). -/
def handlerSetBirthday (_env : Env) (s : ConvState) (t : String) : Res :=
  let date := pyStrip ((pySplitOnSub t "my birthday is").getLastD "")
  Except.ok ("Got it! Your birthday is on " ++ date ++ ".",
    { s with user_profile := { s.user_profile with birthday := some date } })

/-- Python `x or "unknown"` over an optional profile field: None and the
empty string are falsy. -/
def orUnknown : Option String → String
  | none => "unknown"
  | some v => if v == "" then "unknown" else v

/-- Rule 18 body (lines 338-344). -/
def handlerRecall (_env : Env) (s : ConvState) (_t : String) : Res :=
  Except.ok ("Your name is " ++ orUnknown s.user_profile.name
    ++ ", your favorite color is " ++ orUnknown s.user_profile.favorite_color
    ++ ", and your birthday is " ++ orUnknown s.user_profile.birthday ++ ".", s)

/-- Stable descending insertion by mtime: an element goes before the first
strictly-smaller-or-equal-keyed element it ties with only if it came first,
matching Python's stable list.sort(key=mtime, reverse=True). -/
def insertDesc (x : RecentEntry × Int) : List (RecentEntry × Int) → List (RecentEntry × Int)
  | [] => [x]
  | y :: rest => if x.2 ≥ y.2 then x :: y :: rest else y :: insertDesc x rest

/-- recent_files.sort(key=lambda x: x[1], reverse=True). -/
def sortDesc (l : List (RecentEntry × Int)) : List (RecentEntry × Int) :=
  l.foldr insertDesc []

/-- One iteration of the collection loop (lines 355-362): a file whose
getmtime raised is skipped (try/continue), otherwise the (path, mtime)
pair is kept. -/
def collectEntry (f : RecentEntry) : Option (RecentEntry × Int) :=
  match f.mtime with
  | Except.ok m => some (f, m)
  | Except.error _ => none

/-- The generator inside "\n".join (lines 371-374): each top file renders
basename and fromtimestamp(mtime).strftime(...).  That strftime call is
outside every try/except, so its first failure raises out of the join —
and out of respond. -/
def formatLines : List (RecentEntry × Int) → Except PyErr (List String)
  | [] => Except.ok []
  | fm :: rest =>
    match fm.1.mtimeStr with
    | Except.error e => Except.error e
    | Except.ok ts =>
      match formatLines rest with
      | Except.error e => Except.error e
      | Except.ok ls => Except.ok ((fm.1.base ++ " (" ++ ts ++ ")") :: ls)

/-- Rule 19 body (lines 346-375): per-file getmtime failures are skipped,
files are sorted by mtime descending, the top 3 are formatted — where a
timestamp-rendering failure propagates (it is not wrapped). -/
def handlerRecent (env : Env) (s : ConvState) (_t : String) : Res :=
  if !env.docExists then
    Except.ok ("I couldn't find the Documents folder.", s)
  else
    let collected := env.files.filterMap collectEntry
    let top := (sortDesc collected).take 3
    if top.isEmpty then
      Except.ok ("No recent files found.", s)
    else
      match formatLines top with
      | Except.error e => Except.error e
      | Except.ok ls =>
        Except.ok ("Here are your 3 most recent files in Documents:\n"
          ++ String.intercalate "\n" ls, s)

/-- The SSID/Signal/State line scan of lines 386-393, inside the handler's
try: a matching line without a colon raises IndexError (caught by the
enclosing except). -/
def wifiScan : List String → (Option String × Option String × Option String)
    → Except PyErr (Option String × Option String × Option String)
  | [], acc => Except.ok acc
  | line :: rest, (ssid, signal, st) =>
    let l := pyStrip line
    if pyStartsWith "SSID" l then
      match afterColon l with
      | none => Except.error "IndexError: list index out of range"
      | some v => wifiScan rest (some v, signal, st)
    else if pyStartsWith "Signal" l then
      match afterColon l with
      | none => Except.error "IndexError: list index out of range"
      | some v => wifiScan rest (ssid, some v, st)
    else if pyStartsWith "State" l then
      match afterColon l with
      | none => Except.error "IndexError: list index out of range"
      | some v => wifiScan rest (ssid, signal, some v)
    else wifiScan rest (ssid, signal, st)

/-- Rule 20 body (lines 377-401): the whole query and parse sit in one
try/except, so any failure becomes the apology; the final check uses
Python truthiness (a None or empty field means incomplete info). -/
def handlerWifi (env : Env) (s : ConvState) (_t : String) : Res :=
  match env.wifiLines with
  | Except.error _ => Except.ok ("Sorry, I couldn't get the Wi-Fi information.", s)
  | Except.ok lines =>
    match wifiScan lines (none, none, none) with
    | Except.error _ => Except.ok ("Sorry, I couldn't get the Wi-Fi information.", s)
    | Except.ok (ssid, signal, st) =>
      match ssid, signal, st with
      | some a, some g, some c =>
        if a ≠ "" && g ≠ "" && c ≠ "" then
          Except.ok ("Wi-Fi '" ++ a ++ "' is " ++ c
            ++ " with signal strength " ++ g ++ ".", s)
        else Except.ok ("Could not retrieve complete Wi-Fi information.", s)
      | _, _, _ => Except.ok ("Could not retrieve complete Wi-Fi information.", s)

/-- Rule 21 body (lines 403-404). -/
def handlerHello (_env : Env) (s : ConvState) (_t : String) : Res :=
  Except.ok ("Hello.", s)

/-- Rule 22 body (lines 406-411): toggle_mute(True) under try/except. -/
def handlerMute (env : Env) (s : ConvState) (_t : String) : Res :=
  match env.muteResult with
  | Except.ok _ => Except.ok ("Audio muted.", s)
  | Except.error _ => Except.ok ("Sorry, I couldn't mute the audio.", s)

/-- Rule 23 body (lines 413-418): toggle_mute(False) under try/except. -/
def handlerUnmute (env : Env) (s : ConvState) (_t : String) : Res :=
  match env.muteResult with
  | Except.ok _ => Except.ok ("Audio unmuted.", s)
  | Except.error _ => Except.ok ("Sorry, I couldn't unmute the audio.", s)

/-- Rule 24, the final fallback (line 420). -/
def handlerFallback (_env : Env) (s : ConvState) (_t : String) : Res :=
  Except.ok ("Sorry, I don't understand. Try asking something else.", s)

/-! ## respond: the first-match if-chain of teto.py lines 204-420 -/

/-- DesktopAssistant.respond, translated clause by clause in source
order. -/
def respond (env : Env) (s : ConvState) (t : String) : Res :=
  if pTime t then handlerTime env s t
  else if pBattery t then handlerBattery env s t
  else if pHealth t then handlerHealth env s t
  else if pFix t then handlerFix env s t
  else if pCleanup t then handlerCleanup env s t
  else if pFact t then handlerFact env s t
  else if pSummary t then handlerSummary env s t
  else if pOpen t then handlerOpen env s t
  else if pClipboard t then handlerClipboard env s t
  else if pExitWords t then handlerExitWords env s t
  else if pPlayGuess t then handlerPlayGuess env s t
  else if pGuess s t then handlerGuess env s t
  else if pPlayRps t then handlerPlayRps env s t
  else if pRpsMove s t then handlerRpsMove env s t
  else if pSetName t then handlerSetName env s t
  else if pSetColor t then handlerSetColor env s t
  else if pSetBirthday t then handlerSetBirthday env s t
  else if pRecall t then handlerRecall env s t
  else if pRecent t then handlerRecent env s t
  else if pWifi t then handlerWifi env s t
  else if pHello t then handlerHello env s t
  else if pMute t then handlerMute env s t
  else if pUnmute t then handlerUnmute env s t
  else handlerFallback env s t

/-! ## The spec's ordered rule table (spec section 4.3)

The spec presents respond as first-match-wins dispatch over an ordered
list of predicate/handler pairs, rules 1-24.  ruleP k / ruleH k give rule
k+1's predicate and handler (0-based); index 23 is the always-matching
fallback, and so is any out-of-range index. -/

/-- Predicate of the (k+1)-th documented rule. -/
def ruleP : Nat → ConvState → String → Bool
  | 0, _, t => pTime t
  | 1, _, t => pBattery t
  | 2, _, t => pHealth t
  | 3, _, t => pFix t
  | 4, _, t => pCleanup t
  | 5, _, t => pFact t
  | 6, _, t => pSummary t
  | 7, _, t => pOpen t
  | 8, _, t => pClipboard t
  | 9, _, t => pExitWords t
  | 10, _, t => pPlayGuess t
  | 11, s, t => pGuess s t
  | 12, _, t => pPlayRps t
  | 13, s, t => pRpsMove s t
  | 14, _, t => pSetName t
  | 15, _, t => pSetColor t
  | 16, _, t => pSetBirthday t
  | 17, _, t => pRecall t
  | 18, _, t => pRecent t
  | 19, _, t => pWifi t
  | 20, _, t => pHello t
  | 21, _, t => pMute t
  | 22, _, t => pUnmute t
  | _, _, _ => true

/-- Handler of the (k+1)-th documented rule. -/
def ruleH : Nat → Env → ConvState → String → Res
  | 0 => handlerTime
  | 1 => handlerBattery
  | 2 => handlerHealth
  | 3 => handlerFix
  | 4 => handlerCleanup
  | 5 => handlerFact
  | 6 => handlerSummary
  | 7 => handlerOpen
  | 8 => handlerClipboard
  | 9 => handlerExitWords
  | 10 => handlerPlayGuess
  | 11 => handlerGuess
  | 12 => handlerPlayRps
  | 13 => handlerRpsMove
  | 14 => handlerSetName
  | 15 => handlerSetColor
  | 16 => handlerSetBirthday
  | 17 => handlerRecall
  | 18 => handlerRecent
  | 19 => handlerWifi
  | 20 => handlerHello
  | 21 => handlerMute
  | 22 => handlerUnmute
  | _ => handlerFallback

/-- First-match dispatch over the rule table, starting at rule k with the
given remaining fuel; dispatch runs the first matching rule. -/
def dispatchFrom : Nat → Nat → Env → ConvState → String → Res
  | 0, _, env, s, t => handlerFallback env s t
  | fuel + 1, k, env, s, t =>
    if ruleP k s t then ruleH k env s t else dispatchFrom fuel (k + 1) env s t

/-- The spec's view of respond: first-match-wins over the 23 predicated
rules, then the fallback. -/
def dispatch (env : Env) (s : ConvState) (t : String) : Res :=
  dispatchFrom 23 0 env s t

/-- Refinement: the code's if-chain is exactly the spec's first-match
dispatch over the documented rule order. -/
theorem respond_eq_dispatch (env : Env) (s : ConvState) (t : String) :
    respond env s t = dispatch env s t := rfl

/-- dispatchFrom runs rule kk when kk is the first match at or after its
start index. -/
theorem dispatchFrom_first (env : Env) (s : ConvState) (t : String) :
    ∀ fuel k kk, k + fuel = 23 → k ≤ kk → kk ≤ 23 →
      ruleP kk s t = true →
      (∀ j, k ≤ j → j < kk → ruleP j s t = false) →
      dispatchFrom fuel k env s t = ruleH kk env s t := by
  intro fuel
  induction fuel with
  | zero =>
    intro k kk hfuel hk hkk hm _he
    have hk23 : k = 23 := by omega
    have hkk23 : kk = 23 := by omega
    subst hk23; subst hkk23
    simp [dispatchFrom, ruleH]
  | succ n ih =>
    intro k kk hfuel hk hkk hm he
    by_cases hkeq : k = kk
    · subst hkeq
      simp [dispatchFrom, hm]
    · have hklt : k < kk := by omega
      have hkfalse : ruleP k s t = false := he k (Nat.le_refl k) hklt
      simp only [dispatchFrom, hkfalse, Bool.false_eq_true, if_false]
      exact ih (k + 1) kk (by omega) (by omega) hkk hm
        (fun j hj hjlt => he j (by omega) hjlt)

/-- Helper: respond runs exactly the first matching documented rule. -/
theorem respond_first (env : Env) (s : ConvState) (t : String) (k : Nat)
    (hk : k ≤ 23) (hm : ruleP k s t = true)
    (he : ∀ j, j < k → ruleP j s t = false) :
    respond env s t = ruleH k env s t := by
  rw [respond_eq_dispatch]
  exact dispatchFrom_first env s t 23 0 k rfl (Nat.zero_le k) hk hm
    (fun j _ hj => he j hj)

/-- A fixed sample environment used by concrete witnesses: no battery
object, healthy OS calls, deterministic random draws. -/
def envW : Env :=
  { nowStr := "It's 12:00 on Monday, January 01, 2026.",
    battery := Except.ok none,
    cpuPct := Except.ok "7.0",
    memPct := Except.ok "42.0",
    cleanmgr := Except.ok (),
    funFactIdx := 0,
    clipboard := Except.ok "",
    startfileResult := Except.ok (),
    secret := 5,
    rpsIdx := 0,
    muteResult := Except.ok (),
    wifiLines := Except.error "CalledProcessError",
    docExists := false,
    files := [] }

/-- Claim C1: for every input that satisfies the predicate of documented
rule k and of no earlier rule, respond returns exactly the response of
rule k — dispatch is first-match-wins over the documented rule order
(rule 24, index 23, being the always-matching fallback). -/
theorem claim_c1_first_match (env : Env) (s : ConvState) (t : String) (k : Nat)
    (hk : k ≤ 23) (hm : ruleP k s t = true)
    (he : ∀ j, j < k → ruleP j s t = false) :
    respond env s t = ruleH k env s t :=
  respond_first env s t k hk hm he

/-- Witness for C1 at the order-sensitive input "battery problem", which
satisfies both the battery rule (index 1) and the fix-tips rule (index 3):
respond answers with the battery rule, here "Battery info not available.",
not with a fix tip. -/
theorem claim_c1_first_match_witness :
    ruleP 1 initState "battery problem" = true ∧
    ruleP 0 initState "battery problem" = false ∧
    respond envW initState "battery problem"
      = Except.ok ("Battery info not available.", initState) :=
  ⟨by decide, by decide,
    (claim_c1_first_match envW initState "battery problem" 1
      (by omega) (by decide) (by decide)).trans (by rfl)⟩

/-- The second whitespace token of the input, parsed as a Python int —
what int(text.split()[1]) yields when it does not raise. -/
def guessToken (t : String) : Option Int := ((pySplitWS t)[1]?).bind pyInt

/-- Claim C5: with the guess game active (secret sec) and an input that
starts with "guess" and matches no earlier rule, respond compares the
parsed second token with the secret: below gives the too-low hint with
unchanged state, above the too-high hint with unchanged state, equality
deactivates the game and returns the correct message, and a missing or
unparsable token gives the usage hint with unchanged state. -/
theorem claim_c5_guess (env : Env) (s : ConvState) (t : String) (sec : Int)
    (hg : s.game_active = true) (hsec : s.secret_number = some sec)
    (hstart : pyStartsWith "guess" t = true)
    (he : ∀ j, j < 11 → ruleP j s t = false) :
    (∀ g, guessToken t = some g →
      ((g < sec → respond env s t = Except.ok ("Too low! Try again.", s)) ∧
       (sec < g → respond env s t = Except.ok ("Too high! Try again.", s)) ∧
       (g = sec → respond env s t
          = Except.ok ("Correct! You guessed it!", { s with game_active := false })))) ∧
    (guessToken t = none →
      respond env s t = Except.ok ("Please type like: guess 5", s)) := by
  have hrun : respond env s t = handlerGuess env s t :=
    respond_first env s t 11 (by omega)
      (by simp [ruleP, pGuess, hg, hstart]) he
  constructor
  · intro g hsome
    obtain ⟨tok, htok, hparse⟩ := Option.bind_eq_some.mp hsome
    refine ⟨?_, ?_, ?_⟩
    · intro hlt
      simp [hrun, handlerGuess, htok, hparse, hsec, hlt]
    · intro hgt
      have hnlt : ¬(g < sec) := by omega
      simp [hrun, handlerGuess, htok, hparse, hsec, hnlt, hgt]
    · intro heq
      subst heq
      simp [hrun, handlerGuess, htok, hparse, hsec]
  · intro hnone
    rcases htok : (pySplitWS t)[1]? with _ | tok
    · simp [hrun, handlerGuess, htok]
    · have hparse : pyInt tok = none := by
        rw [guessToken, htok] at hnone
        simpa using hnone
      simp [hrun, handlerGuess, htok, hparse]

/-- A state in which the guess game is active with secret 5. -/
def gameState : ConvState := { initState with game_active := true, secret_number := some 5 }

/-- Witness for C5: in gameState, "guess 3" is too low (state unchanged),
"guess 7" too high, "guess 5" correct and deactivating, and "guess x"
yields the usage hint with unchanged state. -/
theorem claim_c5_guess_witness :
    respond envW gameState "guess 3" = Except.ok ("Too low! Try again.", gameState) ∧
    respond envW gameState "guess 7" = Except.ok ("Too high! Try again.", gameState) ∧
    respond envW gameState "guess 5"
      = Except.ok ("Correct! You guessed it!", { gameState with game_active := false }) ∧
    respond envW gameState "guess x" = Except.ok ("Please type like: guess 5", gameState) :=
  ⟨((claim_c5_guess envW gameState "guess 3" 5 rfl rfl (by decide) (by decide)).1
      3 (by decide)).1 (by decide),
   ((claim_c5_guess envW gameState "guess 7" 5 rfl rfl (by decide) (by decide)).1
      7 (by decide)).2.1 (by decide),
   ((claim_c5_guess envW gameState "guess 5" 5 rfl rfl (by decide) (by decide)).1
      5 (by decide)).2.2 rfl,
   (claim_c5_guess envW gameState "guess x" 5 rfl rfl (by decide) (by decide)).2
      (by decide)⟩

/-- The bot's move: random.choice over rpsMoves, as the sampled index. -/
def rpsBot (env : Env) : String := rpsMoves.getD env.rpsIdx.val ""

/-- The standard rock-paper-scissors beats-relation named by the spec. -/
def beats (a b : String) : Bool :=
  (a == "rock" && b == "scissors") || (a == "paper" && b == "rock")
    || (a == "scissors" && b == "paper")

/-- Claim C6: with the RPS game active and the input exactly one of the
three moves (matching no earlier rule), respond — for every possible bot
move — deactivates the game and returns the sentence naming both moves,
whose verdict agrees with the standard beats-relation. -/
theorem claim_c6_rps (env : Env) (s : ConvState) (t : String)
    (hactive : s.rps_active = true)
    (ht : t = "rock" ∨ t = "paper" ∨ t = "scissors")
    (he : ∀ j, j < 13 → ruleP j s t = false) :
    respond env s t
      = Except.ok ("You chose " ++ t ++ ", I chose " ++ rpsBot env ++ ". "
          ++ rpsVerdict t (rpsBot env), { s with rps_active := false }) ∧
    (rpsVerdict t (rpsBot env) = "It's a tie!" ↔ t = rpsBot env) ∧
    (rpsVerdict t (rpsBot env) = "You win!" ↔ beats t (rpsBot env) = true) ∧
    (rpsVerdict t (rpsBot env) = "I win!" ↔ beats (rpsBot env) t = true) ∧
    (∃ a b, "You chose " ++ t ++ ", I chose " ++ rpsBot env ++ ". "
        ++ rpsVerdict t (rpsBot env) = a ++ t ++ b) ∧
    (∃ a b, "You chose " ++ t ++ ", I chose " ++ rpsBot env ++ ". "
        ++ rpsVerdict t (rpsBot env) = a ++ rpsBot env ++ b) := by
  have hmatch : ruleP 13 s t = true := by
    rcases ht with h | h | h <;> subst h <;> simp [ruleP, pRpsMove, hactive]
  have hrun : respond env s t = handlerRpsMove env s t :=
    respond_first env s t 13 (by omega) hmatch he
  have hbot : rpsBot env = "rock" ∨ rpsBot env = "paper" ∨ rpsBot env = "scissors" := by
    rcases henv : env.rpsIdx with ⟨iv, hiv⟩
    interval_cases iv <;> simp [rpsBot, henv, rpsMoves]
  refine ⟨?_, ?_, ?_, ?_, ?_, ?_⟩
  · rw [hrun]; rfl
  · rcases ht with h | h | h <;> rcases hbot with hb | hb | hb <;>
      rw [h, hb] <;> decide
  · rcases ht with h | h | h <;> rcases hbot with hb | hb | hb <;>
      rw [h, hb] <;> decide
  · rcases ht with h | h | h <;> rcases hbot with hb | hb | hb <;>
      rw [h, hb] <;> decide
  · exact ⟨"You chose ", ", I chose " ++ rpsBot env ++ ". " ++ rpsVerdict t (rpsBot env),
      by simp [String.append_assoc]⟩
  · refine ⟨"You chose " ++ t ++ ", I chose ", ". " ++ rpsVerdict t (rpsBot env), ?_⟩
    simp [String.append_assoc]

/-- A state in which the RPS game is active. -/
def rpsState : ConvState := { initState with rps_active := true }

/-- Witness for C6: in rpsState with the bot drawing "rock", the input
"paper" wins, the game is deactivated, and both moves appear in the
reply. -/
theorem claim_c6_rps_witness :
    respond envW rpsState "paper"
      = Except.ok ("You chose paper, I chose rock. You win!",
          { rpsState with rps_active := false }) ∧
    beats "paper" (rpsBot envW) = true :=
  ⟨((claim_c6_rps envW rpsState "paper" rfl (Or.inr (Or.inl rfl))
      (by decide)).1).trans (by rfl),
   by decide⟩

/-- The state after "my name is alice": only the profile name is set. -/
def nameState : ConvState :=
  { initState with user_profile :=
    { name := some "Alice", favorite_color := none, birthday := none } }

/-- Claim C7: from the fresh state, "my name is alice" stores the
capitalized name and answers the acknowledgement; a later recall input
(containing "what do you know about me" and matching no earlier rule)
renders the stored "Alice" and "unknown" for the unset color and
birthday. -/
theorem claim_c7_profile (env1 env2 : Env) (t2 : String)
    (hin : pyIn "what do you know about me" t2 = true)
    (he : ∀ j, j < 17 → ruleP j nameState t2 = false) :
    respond env1 initState "my name is alice"
      = Except.ok ("Nice to meet you, Alice!", nameState) ∧
    respond env2 nameState t2
      = Except.ok ("Your name is Alice, your favorite color is unknown, and your birthday is unknown.",
          nameState) ∧
    (∃ a b, ("Your name is Alice, your favorite color is unknown, and your birthday is unknown.")
        = a ++ "Alice" ++ b) ∧
    (∃ a b, ("Your name is Alice, your favorite color is unknown, and your birthday is unknown.")
        = a ++ "unknown" ++ b) := by
  refine ⟨?_, ?_, ?_, ?_⟩
  · exact (respond_first env1 initState "my name is alice" 14
      (by omega) (by decide) (by decide)).trans (by rfl)
  · exact (respond_first env2 nameState t2 17
      (by omega) (by simpa [ruleP, pRecall] using hin) he).trans (by rfl)
  · exact ⟨"Your name is ", ", your favorite color is unknown, and your birthday is unknown.",
      by decide⟩
  · exact ⟨"Your name is Alice, your favorite color is ",
      ", and your birthday is unknown.", by decide⟩

/-- Witness for C7 at the literal recall phrase. -/
theorem claim_c7_profile_witness :
    respond envW initState "my name is alice"
      = Except.ok ("Nice to meet you, Alice!", nameState) ∧
    respond envW nameState "what do you know about me"
      = Except.ok ("Your name is Alice, your favorite color is unknown, and your birthday is unknown.",
          nameState) :=
  ⟨(claim_c7_profile envW envW "what do you know about me" (by decide) (by decide)).1,
   (claim_c7_profile envW envW "what do you know about me" (by decide) (by decide)).2.1⟩

/-- The conversation state a respond outcome leaves behind (on a raise the
Python state keeps its pre-call value, since every mutation in respond is
immediately followed by a return). -/
def stateOf (r : Res) (pre : ConvState) : ConvState :=
  match r with
  | Except.ok p => p.2
  | Except.error _ => pre


/-- handlerBattery never changes the state. -/
theorem stBattery (env : Env) (s : ConvState) (t : String) :
    stateOf (handlerBattery env s t) s = s := by
  unfold handlerBattery
  split <;> rfl

/-- handlerHealth never changes the state. -/
theorem stHealth (env : Env) (s : ConvState) (t : String) :
    stateOf (handlerHealth env s t) s = s := by
  unfold handlerHealth
  split <;> try rfl
  split <;> rfl

/-- handlerFix never changes the state. -/
theorem stFix (env : Env) (s : ConvState) (t : String) :
    stateOf (handlerFix env s t) s = s := by
  unfold handlerFix
  split <;> rfl

/-- handlerCleanup never changes the state. -/
theorem stCleanup (env : Env) (s : ConvState) (t : String) :
    stateOf (handlerCleanup env s t) s = s := by
  unfold handlerCleanup
  split <;> rfl

/-- handlerSummary never changes the state. -/
theorem stSummary (env : Env) (s : ConvState) (t : String) :
    stateOf (handlerSummary env s t) s = s := by
  unfold handlerSummary
  split <;> try rfl
  dsimp only
  split <;> try rfl
  split <;> rfl

/-- handlerOpen never changes the state. -/
theorem stOpen (env : Env) (s : ConvState) (t : String) :
    stateOf (handlerOpen env s t) s = s := by
  unfold handlerOpen
  dsimp only
  split
  · split <;> rfl
  · rfl

/-- handlerClipboard never changes the state. -/
theorem stClipboard (env : Env) (s : ConvState) (t : String) :
    stateOf (handlerClipboard env s t) s = s := by
  unfold handlerClipboard
  split <;> try rfl
  split <;> rfl

/-- handlerRecall never changes the state. -/
theorem stRecall (env : Env) (s : ConvState) (t : String) :
    stateOf (handlerRecall env s t) s = s := rfl

/-- handlerRecent never changes the state. -/
theorem stRecent (env : Env) (s : ConvState) (t : String) :
    stateOf (handlerRecent env s t) s = s := by
  unfold handlerRecent
  split <;> try rfl
  dsimp only
  split <;> try rfl
  split <;> rfl

/-- handlerWifi never changes the state. -/
theorem stWifi (env : Env) (s : ConvState) (t : String) :
    stateOf (handlerWifi env s t) s = s := by
  unfold handlerWifi
  split
  · rfl
  · split
    · rfl
    · split
      · split <;> rfl
      · rfl

/-- handlerMute never changes the state. -/
theorem stMute (env : Env) (s : ConvState) (t : String) :
    stateOf (handlerMute env s t) s = s := by
  unfold handlerMute
  split <;> rfl

/-- handlerUnmute never changes the state. -/
theorem stUnmute (env : Env) (s : ConvState) (t : String) :
    stateOf (handlerUnmute env s t) s = s := by
  unfold handlerUnmute
  split <;> rfl

/-- Any rule outside the mutating block (rules 11-17, indices 10-16)
returns the state it was given. -/
theorem ruleH_state (env : Env) (s : ConvState) (t : String) (j : Nat)
    (hj : j < 10 ∨ 17 ≤ j) : stateOf (ruleH j env s t) s = s := by
  rcases hj with hj | hj
  · interval_cases j
    · rfl
    · exact stBattery env s t
    · exact stHealth env s t
    · exact stFix env s t
    · exact stCleanup env s t
    · rfl
    · exact stSummary env s t
    · exact stOpen env s t
    · exact stClipboard env s t
    · rfl
  · rcases Nat.lt_or_ge j 23 with h23 | h23
    · interval_cases j
      · exact stRecall env s t
      · exact stRecent env s t
      · exact stWifi env s t
      · rfl
      · exact stMute env s t
      · exact stUnmute env s t
    · obtain ⟨m, rfl⟩ : ∃ m, j = m + 23 := ⟨j - 23, by omega⟩
      rfl

/-- Dispatch from any start index keeps the state when every mutating
rule's predicate is false. -/
theorem dispatchFrom_state (env : Env) (s : ConvState) (t : String) :
    ∀ fuel k, k + fuel = 23 →
      (∀ j, 10 ≤ j → j < 17 → ruleP j s t = false) →
      stateOf (dispatchFrom fuel k env s t) s = s := by
  intro fuel
  induction fuel with
  | zero =>
    intro k hk _hmut
    exact ruleH_state env s t 23 (by omega)
  | succ n ih =>
    intro k hk hmut
    by_cases hkp : ruleP k s t = true
    · simp only [dispatchFrom, hkp, if_true]
      have : k < 10 ∨ 17 ≤ k := by
        by_contra hcon
        push_neg at hcon
        have := hmut k hcon.1 hcon.2
        rw [this] at hkp
        exact Bool.false_ne_true hkp
      exact ruleH_state env s t k this
    · have hkp' : ruleP k s t = false := by
        cases h : ruleP k s t
        · rfl
        · exact absurd h hkp
      simp only [dispatchFrom, hkp', Bool.false_eq_true, if_false]
      exact ih (k + 1) (by omega) hmut

/-- Claim C10: an input matching none of the state-mutating rules — the
two game activations (rules 11 and 13), an active-game guess (rule 12),
an active-game RPS move (rule 14), and the three profile setters (rules
15-17 of the table, indices 14-16) — leaves the whole conversation state
(game flag, secret number, RPS flag and every profile field) unchanged,
including when the input falls through to the final "I don't understand"
fallback. -/
theorem claim_c10_frame (env : Env) (s : ConvState) (t : String)
    (h10 : ruleP 10 s t = false) (h11 : ruleP 11 s t = false)
    (h12 : ruleP 12 s t = false) (h13 : ruleP 13 s t = false)
    (h14 : ruleP 14 s t = false) (h15 : ruleP 15 s t = false)
    (h16 : ruleP 16 s t = false) :
    stateOf (respond env s t) s = s := by
  rw [respond_eq_dispatch]
  refine dispatchFrom_state env s t 23 0 rfl ?_
  intro j hj1 hj2
  interval_cases j <;> assumption

/-- Witness for C10: "hello" starting from the active guess-game state
mutates nothing. -/
theorem claim_c10_frame_witness :
    stateOf (respond envW gameState "hello") gameState = gameState :=
  claim_c10_frame envW gameState "hello" (by decide) (by decide) (by decide)
    (by decide) (by decide) (by decide) (by decide)

/-- Does a respond outcome return normally (no Python exception)? -/
def resOk : Res → Bool
  | Except.ok _ => true
  | Except.error _ => false

/-- handlerBattery returns normally when sensors_battery does. -/
theorem okBattery (env : Env) (s : ConvState) (t : String)
    (ob : Option BatteryInfo) (hb : env.battery = Except.ok ob) :
    resOk (handlerBattery env s t) = true := by
  rcases ob with _ | b <;> simp [handlerBattery, hb, resOk]

/-- handlerHealth returns normally when the psutil calls do. -/
theorem okHealth (env : Env) (s : ConvState) (t : String)
    (c m : String) (hc : env.cpuPct = Except.ok c) (hm : env.memPct = Except.ok m) :
    resOk (handlerHealth env s t) = true := by
  simp [handlerHealth, hc, hm, resOk]

/-- handlerFix always returns normally. -/
theorem okFix (env : Env) (s : ConvState) (t : String) :
    resOk (handlerFix env s t) = true := by
  unfold handlerFix
  split <;> rfl

/-- handlerCleanup always returns normally (Popen is wrapped). -/
theorem okCleanup (env : Env) (s : ConvState) (t : String) :
    resOk (handlerCleanup env s t) = true := by
  unfold handlerCleanup
  split <;> rfl

/-- handlerSummary returns normally when the psutil calls do. -/
theorem okSummary (env : Env) (s : ConvState) (t : String)
    (ob : Option BatteryInfo) (c m : String) (hb : env.battery = Except.ok ob)
    (hc : env.cpuPct = Except.ok c) (hm : env.memPct = Except.ok m) :
    resOk (handlerSummary env s t) = true := by
  rcases ob with _ | b <;> simp [handlerSummary, hb, hc, hm, resOk]

/-- handlerOpen always returns normally (os.startfile is wrapped). -/
theorem okOpen (env : Env) (s : ConvState) (t : String) :
    resOk (handlerOpen env s t) = true := by
  unfold handlerOpen
  dsimp only
  split
  · split <;> rfl
  · rfl

/-- handlerClipboard returns normally when the clipboard read does. -/
theorem okClipboard (env : Env) (s : ConvState) (t : String)
    (cl : String) (hcl : env.clipboard = Except.ok cl) :
    resOk (handlerClipboard env s t) = true := by
  simp only [handlerClipboard, hcl]
  split <;> rfl

/-- handlerGuess always returns normally (the int parse is under a bare
except). -/
theorem okGuess (env : Env) (s : ConvState) (t : String) :
    resOk (handlerGuess env s t) = true := by
  unfold handlerGuess
  split <;> try rfl
  split <;> try rfl
  split <;> try rfl
  split <;> try rfl
  split <;> rfl

/-- Membership in a descending insertion comes from the inserted element
or the old list. -/
theorem mem_insertDesc {x y : RecentEntry × Int} {l : List (RecentEntry × Int)}
    (h : y ∈ insertDesc x l) : y = x ∨ y ∈ l := by
  induction l with
  | nil =>
    simp [insertDesc] at h
    exact Or.inl h
  | cons z rest ih =>
    unfold insertDesc at h
    split_ifs at h
    · rcases List.mem_cons.mp h with h | h
      · exact Or.inl h
      · exact Or.inr h
    · rcases List.mem_cons.mp h with h | h
      · exact Or.inr (by simp [h])
      · rcases ih h with h | h
        · exact Or.inl h
        · exact Or.inr (by simp [h])

/-- The stable descending sort permutes, so preserves membership. -/
theorem mem_sortDesc {y : RecentEntry × Int} {l : List (RecentEntry × Int)}
    (h : y ∈ sortDesc l) : y ∈ l := by
  induction l with
  | nil => simp [sortDesc] at h
  | cons x rest ih =>
    have h1 : y ∈ insertDesc x (sortDesc rest) := by simpa [sortDesc] using h
    rcases mem_insertDesc h1 with h2 | h2
    · simp [h2]
    · exact List.mem_cons_of_mem x (ih h2)

/-- A kept (file, mtime) pair carries the file it was collected from. -/
theorem collectEntry_fst {f : RecentEntry} {fm : RecentEntry × Int}
    (h : collectEntry f = some fm) : fm.1 = f := by
  unfold collectEntry at h
  split at h
  · cases h
    rfl
  · cases h

/-- Timestamp rendering succeeds on a whole list when it succeeds on each
element. -/
theorem formatLines_ok (l : List (RecentEntry × Int))
    (h : ∀ fm ∈ l, ∃ ts, (fm : RecentEntry × Int).1.mtimeStr = Except.ok ts) :
    ∃ ls, formatLines l = Except.ok ls := by
  induction l with
  | nil => exact ⟨[], rfl⟩
  | cons fm rest ih =>
    obtain ⟨ts, hts1⟩ := h fm (List.mem_cons_self fm rest)
    obtain ⟨ls, hls⟩ := ih (fun g hg => h g (List.mem_cons_of_mem fm hg))
    exact ⟨(fm.1.base ++ " (" ++ ts ++ ")") :: ls, by simp [formatLines, hts1, hls]⟩

/-- handlerRecent returns normally when the timestamp rendering of every
scanned file succeeds (per-file getmtime is wrapped and os.walk
suppresses directory errors, but the strftime rendering is not
wrapped). -/
theorem okRecent (env : Env) (s : ConvState) (t : String)
    (hts : ∀ f ∈ env.files, ∃ ts, f.mtimeStr = Except.ok ts) :
    resOk (handlerRecent env s t) = true := by
  unfold handlerRecent
  split
  · rfl
  · dsimp only
    split
    · rfl
    · have hmem : ∀ fm ∈ (sortDesc (env.files.filterMap collectEntry)).take 3,
          ∃ ts, (fm : RecentEntry × Int).1.mtimeStr = Except.ok ts := by
        intro fm hfm
        have h1 : fm ∈ sortDesc (env.files.filterMap collectEntry) :=
          List.take_subset 3 _ hfm
        obtain ⟨f, hf, hsome⟩ := List.mem_filterMap.mp (mem_sortDesc h1)
        rw [collectEntry_fst hsome]
        exact hts f hf
      obtain ⟨ls, hls⟩ := formatLines_ok _ hmem
      rw [hls]
      rfl

/-- handlerWifi always returns normally (the whole query sits in one
try/except). -/
theorem okWifi (env : Env) (s : ConvState) (t : String) :
    resOk (handlerWifi env s t) = true := by
  unfold handlerWifi
  split
  · rfl
  · split
    · rfl
    · split
      · split <;> rfl
      · rfl

/-- handlerMute always returns normally (the COM call is wrapped). -/
theorem okMute (env : Env) (s : ConvState) (t : String) :
    resOk (handlerMute env s t) = true := by
  unfold handlerMute
  split <;> rfl

/-- handlerUnmute always returns normally. -/
theorem okUnmute (env : Env) (s : ConvState) (t : String) :
    resOk (handlerUnmute env s t) = true := by
  unfold handlerUnmute
  split <;> rfl

/-- Every rule handler returns normally provided the four unwrapped OS
calls (battery, CPU, memory, clipboard) and the recent-files timestamp
renderings do. -/
theorem ruleH_ok (env : Env) (s : ConvState) (t : String) (j : Nat)
    (ob : Option BatteryInfo) (c m cl : String)
    (hb : env.battery = Except.ok ob) (hc : env.cpuPct = Except.ok c)
    (hm : env.memPct = Except.ok m) (hcl : env.clipboard = Except.ok cl)
    (hts : ∀ f ∈ env.files, ∃ ts, f.mtimeStr = Except.ok ts) :
    resOk (ruleH j env s t) = true := by
  rcases Nat.lt_or_ge j 23 with h23 | h23
  · interval_cases j
    · rfl
    · exact okBattery env s t ob hb
    · exact okHealth env s t c m hc hm
    · exact okFix env s t
    · exact okCleanup env s t
    · rfl
    · exact okSummary env s t ob c m hb hc hm
    · exact okOpen env s t
    · exact okClipboard env s t cl hcl
    · rfl
    · rfl
    · exact okGuess env s t
    · rfl
    · rfl
    · rfl
    · rfl
    · rfl
    · rfl
    · exact okRecent env s t hts
    · exact okWifi env s t
    · rfl
    · exact okMute env s t
    · exact okUnmute env s t
  · obtain ⟨n, rfl⟩ : ∃ n, j = n + 23 := ⟨j - 23, by omega⟩
    rfl

/-- Dispatch returns normally under the same proviso, from any index. -/
theorem dispatchFrom_ok (env : Env) (s : ConvState) (t : String)
    (ob : Option BatteryInfo) (c m cl : String)
    (hb : env.battery = Except.ok ob) (hc : env.cpuPct = Except.ok c)
    (hm : env.memPct = Except.ok m) (hcl : env.clipboard = Except.ok cl)
    (hts : ∀ f ∈ env.files, ∃ ts, f.mtimeStr = Except.ok ts) :
    ∀ fuel k, resOk (dispatchFrom fuel k env s t) = true := by
  intro fuel
  induction fuel with
  | zero =>
    intro k
    exact ruleH_ok env s t 23 ob c m cl hb hc hm hcl hts
  | succ n ih =>
    intro k
    by_cases hkp : ruleP k s t = true
    · simp only [dispatchFrom, hkp, if_true]
      exact ruleH_ok env s t k ob c m cl hb hc hm hcl hts
    · have hkp' : ruleP k s t = false := by
        cases h : ruleP k s t
        · rfl
        · exact absurd h hkp
      simp only [dispatchFrom, hkp', Bool.false_eq_true, if_false]
      exact ih (k + 1)

/-- Claim C4 (amended): respond converts to a user-facing string every
failure of the OS calls its code wraps (cleanup launch, app launch,
Wi-Fi query, mute toggle, per-file mtime reads), so it returns normally
on every input whenever the calls the code leaves unwrapped succeed:
the battery, CPU, memory and clipboard reads, and the
fromtimestamp/strftime timestamp rendering of the files the recent-files
report would list. -/
theorem claim_c4_wrapped_total (env : Env) (s : ConvState) (t : String)
    (ob : Option BatteryInfo) (c m cl : String)
    (hb : env.battery = Except.ok ob) (hc : env.cpuPct = Except.ok c)
    (hm : env.memPct = Except.ok m) (hcl : env.clipboard = Except.ok cl)
    (hts : ∀ f ∈ env.files, ∃ ts, f.mtimeStr = Except.ok ts) :
    resOk (respond env s t) = true := by
  rw [respond_eq_dispatch]
  exact dispatchFrom_ok env s t ob c m cl hb hc hm hcl hts 23 0

/-- An environment whose battery query raises, all wrapped calls failing
too: the wrapped failures are still converted, but the battery raise
escapes. -/
def envBad : Env :=
  { envW with
    battery := Except.error "sensors_battery failed",
    cleanmgr := Except.error "FileNotFoundError",
    startfileResult := Except.error "OSError",
    muteResult := Except.error "COMError" }

/-- Counterexample for C4 as stated: on input "battery" with a raising
sensors_battery call, respond propagates the exception instead of
returning an apology string — so not every OS call inside respond is
wrapped. -/
theorem claim_c4_unwrapped_cex :
    respond envBad initState "battery" = Except.error "sensors_battery failed" := by
  rfl

/-- An environment where only the wrapped calls fail. -/
def envMixed : Env :=
  { envW with
    cleanmgr := Except.error "FileNotFoundError",
    startfileResult := Except.error "OSError",
    muteResult := Except.error "COMError" }

/-- Witness for C4's amended theorem at a concrete input that exercises a
wrapped failing call (cleanup launch) while the unwrapped calls
succeed. -/
theorem claim_c4_wrapped_total_witness :
    resOk (respond envMixed initState "run cleanup") = true :=
  claim_c4_wrapped_total envMixed initState "run cleanup" none "7.0" "42.0" ""
    rfl rfl rfl rfl (by intro f hf; simp [envMixed, envW] at hf)

/-- An environment where the Documents scan finds one file whose getmtime
succeeded (a pre-epoch timestamp) but whose fromtimestamp/strftime
rendering raises. -/
def envRecentBad : Env :=
  { envW with
    docExists := true,
    files := [{ base := "old.txt", mtime := Except.ok (-11644473600),
                mtimeStr := Except.error "OSError: [Errno 22] Invalid argument" }] }

/-- The timestamp rendering at teto.py line 372 is a live unwrapped error
path: even with battery, CPU, memory and clipboard all fine, a
recent-files query raises out of respond when strftime-rendering a
scanned file's mtime fails. -/
theorem respond_recent_raise :
    respond envRecentBad initState "recent files"
      = Except.error "OSError: [Errno 22] Invalid argument" := rfl

/-! ## TextBubble (teto.py lines 55-93): reveal / auto-hide timers

The bubble is modelled as a discrete-event system.  A `show` event is a
show_animated_text call; a `tick` is one firing of the reveal QTimer (a
member timer, so timer.start in show restarts it — the reveal cannot
leak); a `hideFire` is the firing of one pending
QTimer.singleShot(6000, hide) — single-shots are free-standing timers the
class holds no handle to, so nothing ever cancels them; we count the
pending ones. -/

/-- The character full_text[i], as the one-character string Python
appends. -/
def charAt (s : String) (i : Nat) : String :=
  match s.data[i]? with
  | some c => String.mk [c]
  | none => ""

/-- TextBubble state: the Qt label fields plus the timer bookkeeping. -/
structure BubbleState where
  full_text : String
  displayed_text : String
  char_index : Nat
  visible : Bool
  timerActive : Bool
  pendingHides : Nat
deriving DecidableEq

/-- TextBubble.__init__ (lines 56-74): hidden, empty, timer idle. -/
def initBubble : BubbleState :=
  { full_text := "", displayed_text := "", char_index := 0,
    visible := false, timerActive := false, pendingHides := 0 }

/-- Events the bubble reacts to. -/
inductive BubbleEvent
  | showText (msg : String)
  | tick
  | hideFire
deriving DecidableEq

/-- One event step.  show_animated_text (lines 76-82) resets the text and
index, shows the label and (re)starts the member reveal timer — but
touches no pending single-shot.  _next_character (lines 84-93) appends one
character while any remain, else stops the reveal timer and schedules the
6000 ms hide single-shot.  A firing single-shot hides the label,
whatever is being displayed by then. -/
def bubbleStep (b : BubbleState) : BubbleEvent → BubbleState
  | BubbleEvent.showText msg =>
    { b with
      full_text := msg, displayed_text := "", char_index := 0,
      visible := true, timerActive := true }
  | BubbleEvent.tick =>
    if b.timerActive then
      if b.char_index < b.full_text.length then
        { b with
          displayed_text := b.displayed_text ++ charAt b.full_text b.char_index,
          char_index := b.char_index + 1 }
      else
        { b with timerActive := false, pendingHides := b.pendingHides + 1 }
    else b
  | BubbleEvent.hideFire =>
    if b.pendingHides > 0 then
      { b with visible := false, pendingHides := b.pendingHides - 1 }
    else b

/-- A run of the bubble from its initial state. -/
def bubbleRun (evs : List BubbleEvent) : BubbleState :=
  evs.foldl bubbleStep initBubble

/-- The reveal index never passes the text length: preserved by every
event. -/
theorem bubbleStep_index_le (b : BubbleState) (e : BubbleEvent)
    (h : b.char_index ≤ b.full_text.length) :
    (bubbleStep b e).char_index ≤ (bubbleStep b e).full_text.length := by
  cases e with
  | showText msg => simp [bubbleStep]
  | tick =>
    unfold bubbleStep
    split_ifs with h1 h2 <;> simp <;> omega
  | hideFire =>
    unfold bubbleStep
    split_ifs with h1 <;> simpa using h

/-- The invariant holds along any run suffix from an invariant state. -/
theorem bubbleFold_index_le (evs : List BubbleEvent) :
    ∀ b : BubbleState, b.char_index ≤ b.full_text.length →
      (evs.foldl bubbleStep b).char_index ≤ (evs.foldl bubbleStep b).full_text.length := by
  induction evs with
  | nil => intro b h; simpa using h
  | cons e rest ih =>
    intro b h
    simpa using ih (bubbleStep b e) (bubbleStep_index_le b e h)

/-- Claim C9: along every event sequence the revealed prefix length never
exceeds the text length; while the reveal timer runs and characters
remain, each tick reveals exactly one more character; and the tick that
finds the text complete stops the reveal timer and schedules the
auto-hide delay. -/
theorem claim_c9_bubble (evs : List BubbleEvent) (b : BubbleState) :
    ((bubbleRun evs).char_index ≤ (bubbleRun evs).full_text.length) ∧
    (b.timerActive = true → b.char_index < b.full_text.length →
      bubbleStep b BubbleEvent.tick
        = { b with
            displayed_text := b.displayed_text ++ charAt b.full_text b.char_index,
            char_index := b.char_index + 1 }) ∧
    (b.timerActive = true → b.char_index = b.full_text.length →
      bubbleStep b BubbleEvent.tick
        = { b with timerActive := false, pendingHides := b.pendingHides + 1 }) := by
  refine ⟨bubbleFold_index_le evs initBubble (by simp [initBubble]), ?_, ?_⟩
  · intro ht hlt
    simp [bubbleStep, ht, hlt]
  · intro ht heq
    simp [bubbleStep, ht, heq]

/-- Witness for C9 on the concrete run show "Hi", tick, tick, tick: two
reveal ticks advance the index 0 to 1 to 2, the third tick stops the
reveal and schedules the hide, and the index never passed 2. -/
theorem claim_c9_bubble_witness :
    (bubbleRun [BubbleEvent.showText "Hi", BubbleEvent.tick]).char_index
        ≤ (bubbleRun [BubbleEvent.showText "Hi", BubbleEvent.tick]).full_text.length ∧
    bubbleStep (bubbleRun [BubbleEvent.showText "Hi"]) BubbleEvent.tick
      = { full_text := "Hi", displayed_text := "H", char_index := 1,
          visible := true, timerActive := true, pendingHides := 0 } ∧
    bubbleStep (bubbleRun [BubbleEvent.showText "Hi", BubbleEvent.tick, BubbleEvent.tick])
        BubbleEvent.tick
      = { full_text := "Hi", displayed_text := "Hi", char_index := 2,
          visible := true, timerActive := false, pendingHides := 1 } :=
  ⟨(claim_c9_bubble [BubbleEvent.showText "Hi", BubbleEvent.tick] initBubble).1,
   ((claim_c9_bubble [] (bubbleRun [BubbleEvent.showText "Hi"])).2.1
      (by decide) (by decide)).trans (by decide),
   ((claim_c9_bubble [] (bubbleRun [BubbleEvent.showText "Hi", BubbleEvent.tick,
      BubbleEvent.tick])).2.2 (by decide) (by decide)).trans (by decide)⟩

/-! ## Counterexample and amendment for the bubble cancellation claim (C2)

show_animated_text restarts the member reveal QTimer, which cleanly
cancels a pending reveal; but the 6000 ms auto-hide is a free-standing
QTimer.singleShot the class keeps no handle to, so a new message cannot
cancel it.  The trace below is realisable in real time: message "a"
finishes its reveal (scheduling its hide at completion time T + 6000 ms),
the new message is shown before T + 6000, and the old single-shot then
fires. -/

/-- Counterexample for C2 as stated: after show "a", its two reveal ticks
(scheduling the auto-hide) and a new show "bb", the earlier message's
hide timer is still pending — a leaked timer — and when it fires it hides
the bubble while the new message's reveal is still in progress. -/
theorem claim_c2_stale_hide_cex :
    (bubbleRun [BubbleEvent.showText "a", BubbleEvent.tick, BubbleEvent.tick,
        BubbleEvent.showText "bb"]).pendingHides = 1 ∧
    (bubbleStep (bubbleRun [BubbleEvent.showText "a", BubbleEvent.tick, BubbleEvent.tick,
        BubbleEvent.showText "bb"]) BubbleEvent.hideFire).visible = false ∧
    (bubbleStep (bubbleRun [BubbleEvent.showText "a", BubbleEvent.tick, BubbleEvent.tick,
        BubbleEvent.showText "bb"]) BubbleEvent.hideFire).char_index
      < (bubbleStep (bubbleRun [BubbleEvent.showText "a", BubbleEvent.tick, BubbleEvent.tick,
        BubbleEvent.showText "bb"]) BubbleEvent.hideFire).full_text.length := by
  decide

/-- Claim C2 (amended): a repeated show_animated_text cleanly restarts the
character reveal — index back to zero, text replaced, the shared reveal
timer restarted, so no reveal timer leaks — but it does not cancel a
pending 6000 ms auto-hide single-shot from an earlier message: the count
of pending hides is carried over unchanged, and any pending hide still
hides the bubble when it fires, whatever message is then showing. -/
theorem claim_c2_show_restart (b : BubbleState) (msg : String) :
    (bubbleStep b (BubbleEvent.showText msg)
      = { b with
          full_text := msg, displayed_text := "", char_index := 0,
          visible := true, timerActive := true }) ∧
    ((bubbleStep b (BubbleEvent.showText msg)).pendingHides = b.pendingHides) ∧
    (0 < b.pendingHides → (bubbleStep b BubbleEvent.hideFire).visible = false) := by
  refine ⟨rfl, rfl, ?_⟩
  intro h
  simp [bubbleStep, h]

/-- Witness for C2's amended theorem on the counterexample trace. -/
theorem claim_c2_show_restart_witness :
    (bubbleStep (bubbleRun [BubbleEvent.showText "a", BubbleEvent.tick, BubbleEvent.tick])
        (BubbleEvent.showText "bb")).pendingHides
      = (bubbleRun [BubbleEvent.showText "a", BubbleEvent.tick, BubbleEvent.tick]).pendingHides ∧
    (bubbleStep (bubbleRun [BubbleEvent.showText "a", BubbleEvent.tick, BubbleEvent.tick,
        BubbleEvent.showText "bb"]) BubbleEvent.hideFire).visible = false :=
  ⟨(claim_c2_show_restart (bubbleRun [BubbleEvent.showText "a", BubbleEvent.tick,
      BubbleEvent.tick]) "bb").2.1,
   (claim_c2_show_restart (bubbleRun [BubbleEvent.showText "a", BubbleEvent.tick,
      BubbleEvent.tick, BubbleEvent.showText "bb"]) "bb").2.2 (by decide)⟩

/-! ## AnimatedAvatar (teto.py lines 15-52): blink / talk timers

blink_once sets the blink sprite and schedules a 300 ms
QTimer.singleShot(return_to_idle); talk sets the mouth-open sprite and a
700 ms single-shot of the same callback.  Nothing cancels a pending
single-shot, so every scheduled return_to_idle fires.  We model a call
history as timed writes: each call writes its sprite at its call time and
Idle at its deadline; the sprite visible at a time is the write with the
largest time not after it (ties resolved in favour of the later-scheduled
write, matching the event queue's firing order). -/

/-- The three sprite pixmaps. -/
inductive Sprite
  | idle
  | blink
  | mouthOpen
deriving DecidableEq

/-- The two transient-animation entry points. -/
inductive AvCall
  | blinkOnce
  | talk
deriving DecidableEq

/-- Writes produced by a call at time t: the immediate sprite change and
the scheduled return_to_idle (300 ms for blink, 700 ms for talk). -/
def callWrites : Nat × AvCall → List (Nat × Sprite)
  | (t, AvCall.blinkOnce) => [(t, Sprite.blink), (t + 300, Sprite.idle)]
  | (t, AvCall.talk) => [(t, Sprite.mouthOpen), (t + 700, Sprite.idle)]

/-- All writes of a call history, in scheduling order. -/
def avatarWrites (calls : List (Nat × AvCall)) : List (Nat × Sprite) :=
  (calls.map callWrites).flatten

/-- The last write applied by time now: the write of largest time ≤ now,
later-scheduled writes winning ties. -/
def lastWrite (now : Nat) (l : List (Nat × Sprite)) : Option (Nat × Sprite) :=
  l.foldl
    (fun acc w =>
      if w.1 ≤ now then
        match acc with
        | none => some w
        | some a => if a.1 ≤ w.1 then some w else some a
      else acc)
    none

/-- self.current at time now, starting from the idle sprite. -/
def spriteAt (calls : List (Nat × AvCall)) (now : Nat) : Sprite :=
  match lastWrite now (avatarWrites calls) with
  | none => Sprite.idle
  | some w => w.2

/-- Counterexample for C3 as stated: talk at 0, blink_once at 500 (during
the 700 ms talk period).  The claim says the sprite returns to Idle
exactly 300 ms after the blink call — at 800, not at the talk deadline
700 — so it should still be Blinking at 700.  In the code the talk's
pending return_to_idle is not reset and fires at 700: the sprite is
already Idle at the original talk deadline, 200 ms into the blink. -/
theorem claim_c3_deadline_cex :
    spriteAt [(0, AvCall.talk), (500, AvCall.blinkOnce)] 600 = Sprite.blink ∧
    spriteAt [(0, AvCall.talk), (500, AvCall.blinkOnce)] 700 = Sprite.idle ∧
    700 < 500 + 300 := by
  decide

/-- Claim C3 (amended): a blink_once at time tb during a talk period
started at t0 switches the sprite to Blinking immediately, but the sprite
returns to Idle at the earliest pending return_to_idle deadline — the
minimum of the original talk deadline t0 + 700 and tb + 300 — because
scheduled deadlines are never reset or cancelled. -/
theorem claim_c3_blink_during_talk (t0 tb : Nat)
    (h1 : t0 < tb) (h2 : tb < t0 + 700) :
    (∀ u, t0 ≤ u → u < tb →
      spriteAt [(t0, AvCall.talk), (tb, AvCall.blinkOnce)] u = Sprite.mouthOpen) ∧
    (∀ u, tb ≤ u → u < min (tb + 300) (t0 + 700) →
      spriteAt [(t0, AvCall.talk), (tb, AvCall.blinkOnce)] u = Sprite.blink) ∧
    (∀ u, min (tb + 300) (t0 + 700) ≤ u →
      spriteAt [(t0, AvCall.talk), (tb, AvCall.blinkOnce)] u = Sprite.idle) := by
  refine ⟨?_, ?_, ?_⟩
  · intro u hu1 hu2
    have c1 : t0 ≤ u := hu1
    have c2 : ¬(t0 + 700 ≤ u) := by omega
    have c3 : ¬(tb ≤ u) := by omega
    have c4 : ¬(tb + 300 ≤ u) := by omega
    simp [spriteAt, lastWrite, avatarWrites, callWrites, c1, c2, c3, c4]
  · intro u hu1 hu2
    have c1 : t0 ≤ u := by omega
    have c2 : ¬(t0 + 700 ≤ u) := by omega
    have c3 : tb ≤ u := hu1
    have c4 : ¬(tb + 300 ≤ u) := by omega
    have c5 : t0 ≤ tb := by omega
    simp [spriteAt, lastWrite, avatarWrites, callWrites, c1, c2, c3, c4, c5]
  · intro u hu
    have c1 : t0 ≤ u := by omega
    have c3 : tb ≤ u := by omega
    have c5 : t0 ≤ tb := by omega
    have c6 : t0 ≤ t0 + 700 := by omega
    have c7 : tb ≤ tb + 300 := by omega
    have cE : ¬(t0 + 700 ≤ tb) := by omega
    by_cases cA : tb + 300 ≤ u
    · by_cases cB : t0 + 700 ≤ u
      · by_cases cC : t0 + 700 ≤ tb + 300 <;>
          simp [spriteAt, lastWrite, avatarWrites, callWrites,
            c1, c3, c5, c6, c7, cE, cA, cB, cC]
      · simp [spriteAt, lastWrite, avatarWrites, callWrites,
          c1, c3, c5, c6, c7, cE, cA, cB]
    · have cB : t0 + 700 ≤ u := by omega
      simp [spriteAt, lastWrite, avatarWrites, callWrites,
        c1, c3, c5, c6, c7, cE, cA, cB]

/-- Witness for C3's amended theorem at talk 0, blink 500: mouth open at
100, still blinking at 699, idle at the talk deadline 700. -/
theorem claim_c3_blink_during_talk_witness :
    spriteAt [(0, AvCall.talk), (500, AvCall.blinkOnce)] 100 = Sprite.mouthOpen ∧
    spriteAt [(0, AvCall.talk), (500, AvCall.blinkOnce)] 699 = Sprite.blink ∧
    spriteAt [(0, AvCall.talk), (500, AvCall.blinkOnce)] 700 = Sprite.idle :=
  ⟨(claim_c3_blink_during_talk 0 500 (by omega) (by omega)).1 100
      (by omega) (by omega),
   (claim_c3_blink_during_talk 0 500 (by omega) (by omega)).2.1 699
      (by omega) (by omega),
   (claim_c3_blink_during_talk 0 500 (by omega) (by omega)).2.2 700
      (by omega)⟩

/-! ## Startup contract (teto.py __main__ block, lines 467-480) -/

/-- The three mandatory sprite image paths, in source order (idle,
mouth-open, blink). -/
def imagePaths : List String :=
  ["C:/Users/Dell/Documents/deskteto/tet00.png",
   "C:/Users/Dell/Documents/deskteto/tet01.png",
   "C:/Users/Dell/Documents/deskteto/tet02.png"]

/-- The startup loop (lines 472-475) over os.path.exists results: a
missing file prints its diagnostic and then immediately sys.exit(1) —
the exit sits inside the loop body, so scanning stops at the first
missing file.  Returns the printed lines and whether the process exited
with status 1. -/
def startupScan (ex : String → Bool) : List String → List String × Bool
  | [] => ([], false)
  | p :: rest =>
    if ex p then startupScan ex rest
    else (["Missing image: " ++ p], true)

/-- The full startup check over the three mandatory paths. -/
def startupResult (ex : String → Bool) : List String × Bool :=
  startupScan ex imagePaths

/-- QApplication / DesktopAssistant construction (lines 477-479) runs only
when the scan did not exit. -/
def windowCreated (ex : String → Bool) : Bool := !(startupResult ex).2

/-- Filesystem with only the mouth-open image present: the idle and blink
images are both missing. -/
def exTwoMissing (p : String) : Bool :=
  p == "C:/Users/Dell/Documents/deskteto/tet01.png"

/-- Counterexample for C8 as stated: with two files missing (idle and
blink) the process does exit non-zero, but prints exactly one diagnostic
line — for the first missing file — not one line per missing file. -/
theorem claim_c8_two_missing_cex :
    (startupResult exTwoMissing).2 = true ∧
    (startupResult exTwoMissing).1
      = ["Missing image: C:/Users/Dell/Documents/deskteto/tet00.png"] ∧
    ¬((startupResult exTwoMissing).1.length = 2) := by
  decide

/-- Claim C8 (amended): if any mandatory sprite image is missing, the
process exits with non-zero status before any window is created, printing
exactly one diagnostic line, naming the first missing file in path order
(later paths are not even checked). -/
theorem claim_c8_exit_first_missing (ex : String → Bool)
    (h : ∃ p ∈ imagePaths, ex p = false) :
    (startupResult ex).2 = true ∧
    (startupResult ex).1
      = ["Missing image: " ++ ((imagePaths.find? (fun p => !(ex p))).getD "")] ∧
    (startupResult ex).1.length = 1 ∧
    windowCreated ex = false := by
  cases h0 : ex "C:/Users/Dell/Documents/deskteto/tet00.png" <;>
    cases h1 : ex "C:/Users/Dell/Documents/deskteto/tet01.png" <;>
      cases h2 : ex "C:/Users/Dell/Documents/deskteto/tet02.png" <;>
        simp [startupResult, startupScan, windowCreated, imagePaths,
          List.find?, h0, h1, h2]
  obtain ⟨p, hp, hfalse⟩ := h
  simp [imagePaths] at hp
  rcases hp with hp | hp | hp <;> subst hp <;> simp_all

/-- Witness for C8's amended theorem on the two-missing filesystem. -/
theorem claim_c8_exit_first_missing_witness :
    (startupResult exTwoMissing).2 = true ∧
    (startupResult exTwoMissing).1.length = 1 ∧
    windowCreated exTwoMissing = false :=
  ⟨(claim_c8_exit_first_missing exTwoMissing
      ⟨"C:/Users/Dell/Documents/deskteto/tet00.png", by decide, by decide⟩).1,
   (claim_c8_exit_first_missing exTwoMissing
      ⟨"C:/Users/Dell/Documents/deskteto/tet00.png", by decide, by decide⟩).2.2.1,
   (claim_c8_exit_first_missing exTwoMissing
      ⟨"C:/Users/Dell/Documents/deskteto/tet00.png", by decide, by decide⟩).2.2.2⟩
